import Mathlib

/-!
Shallow embedding of the slogtripper package (slogtripper.go): an
`http.RoundTripper` decorator that emits one structured slog record per
outbound request/response pair, optionally capturing headers and bodies.

Modelling conventions:
* Go `error` values are their message strings (`Err`).
* A `*slog.Logger` is an abstract numeric handle; `none` is a nil pointer.
* An `io.ReadCloser` body is modelled by what draining it yields
  (`bytes.Buffer.ReadFrom`): either a read error or the full content.
* `http.Header` is an association list from stored names to value lists;
  `none` at a use site is a nil map.  `Header.Get` canonicalises the key
  exactly as `textproto.CanonicalMIMEHeaderKey` does.
* `RoundTrip` becomes a pure function from the decorator configuration, the
  delegate's behaviour, the (optional) request and the ambient clock values
  to a result record that also tracks whether the delegate was invoked,
  which log call was made, the final request/response objects (Go mutates
  them in place), which bodies were closed, and any nil-pointer panic site.
-/

/-- Go `error` values, modelled by their message string. -/
abbrev Err := String

/-- Abstract handle for a `*slog.Logger`; `none` at use sites models a nil
pointer. -/
abbrev Logger := Nat

/-- Content of a body stream, as the string `bytes.Buffer.String()` yields. -/
abbrev Bytes := String

/-- Model of an `io.ReadCloser` body: draining it either fails with a read
error or yields the whole content.  `io.NopCloser` over a buffer of captured
bytes is a `Body` whose read yields exactly those bytes. -/
structure Body where
  readResult : Except Err Bytes

/-- Model of a non-nil `http.Header` map: stored names paired with their value
lists.  Go map iteration order is modelled by list order. -/
abbrev Header := List (String × List String)

/-- Character class of `net/textproto`'s token bytes (letters, digits and the
symbols allowed in a header field name). -/
def validHeaderFieldChar (c : Char) : Bool :=
  c.isUpper || c.isLower || c.isDigit ||
  c == '!' || c == '#' || c == '$' || c == '%' || c == '&' ||
  c == Char.ofNat 39 || c == '*' || c == '+' || c == '-' || c == '.' ||
  c == '^' || c == '_' || c == Char.ofNat 96 || c == '|' || c == '~'

/-- Case folding pass of `textproto.CanonicalMIMEHeaderKey`: uppercase the
first letter and each letter following a hyphen, lowercase the rest. -/
def canonChars : Bool → List Char → List Char
  | _, [] => []
  | upper, c :: cs =>
    (if upper then c.toUpper else c.toLower) :: canonChars (c == '-') cs

/-- Model of `textproto.CanonicalMIMEHeaderKey`: if every character is a valid
token character the key is canonicalised, otherwise it is returned
unchanged. -/
def canonicalMIMEHeaderKey (s : String) : String :=
  if s.toList.all validHeaderFieldChar then String.mk (canonChars true s.toList)
  else s

/-- Model of `http.Header.Get`: canonicalise the key, return the first stored
value for it, or the empty string when the map is nil or has no value. -/
def headerGet (h : Option Header) (key : String) : String :=
  match h with
  | none => ""
  | some hs =>
    match hs.lookup (canonicalMIMEHeaderKey key) with
    | some (v :: _) => v
    | some [] => ""
    | none => ""

/-- Values of type `http.RoundTripper` relevant to this model: an external
transport (identified by a number) or a `SlogTripper` with its configuration
fields (logger, level, delegate, four capture flags). -/
inductive Transport where
  | ext : Nat → Transport
  | tripper : Option Logger → Int → Transport → Bool → Bool → Bool → Bool → Transport
deriving DecidableEq

/-- Fields of the `SlogTripper` struct. `logger = none` models a nil
`*slog.Logger`; `logAtLevel` carries the numeric `slog.Level`. -/
structure SlogTripper where
  logger : Option Logger
  logAtLevel : Int
  proxyTransport : Transport
  captureRequestBody : Bool
  captureResponseBody : Bool
  captureRequestHeaders : Bool
  captureResponseHeaders : Bool
deriving DecidableEq

/-- View a `SlogTripper` value as a `Transport`. -/
def SlogTripper.asTransport (st : SlogTripper) : Transport :=
  Transport.tripper st.logger st.logAtLevel st.proxyTransport
    st.captureRequestBody st.captureResponseBody
    st.captureRequestHeaders st.captureResponseHeaders

/-- Recover the `SlogTripper` configuration stored in a transport, when the
transport is a `SlogTripper`. -/
def Transport.config : Transport → Option SlogTripper
  | Transport.ext _ => none
  | Transport.tripper l lvl p a b c d => some ⟨l, lvl, p, a, b, c, d⟩

/-- Whether a transport is a `SlogTripper` instance. -/
def Transport.isTripper : Transport → Bool
  | Transport.ext _ => false
  | Transport.tripper _ _ _ _ _ _ _ => true

/-- Whether the original transport `t` appears in the delegate chain of this
transport (directly or through further decorators). -/
def Transport.wraps : Transport → Transport → Bool
  | Transport.ext _, _ => false
  | Transport.tripper _ _ p _ _ _ _, t => decide (p = t) || p.wraps t

/-- Process-wide ambient defaults: `slog.Default()` and
`http.DefaultTransport`. -/
structure Globals where
  defaultLogger : Logger
  defaultTransport : Transport
deriving DecidableEq

/-- Numeric value of `slog.LevelDebug`. -/
def levelDebug : Int := -4

/-- Numeric value of `slog.LevelInfo` (the zero value of `slog.Level`). -/
def levelInfo : Int := 0

/-- The functional options of the package.  Each constructor is one of the
exported `Option`-returning functions; the data is the argument the closure
captured (`none` standing for a nil pointer/interface). -/
inductive TripperOption where
  | withLogger : Option Logger → TripperOption
  | withLoggingLevel : Int → TripperOption
  | withRoundTripper : Option Transport → TripperOption
  | captureRequestBody : TripperOption
  | captureResponseBody : TripperOption
  | captureRequestHeaders : TripperOption
  | captureResponseHeaders : TripperOption
deriving DecidableEq

/-- Application of one functional option to the struct under construction,
with the ambient defaults in scope (`WithLogger` falls back to
`slog.Default()` on nil, `WithRoundTripper` to `http.DefaultTransport`). -/
def applyOption (g : Globals) (st : SlogTripper) : TripperOption → SlogTripper
  | TripperOption.withLogger l =>
    { st with logger := some (match l with
        | none => g.defaultLogger
        | some x => x) }
  | TripperOption.withLoggingLevel level => { st with logAtLevel := level }
  | TripperOption.withRoundTripper t =>
    { st with proxyTransport := (match t with
        | none => g.defaultTransport
        | some x => x) }
  | TripperOption.captureRequestBody => { st with captureRequestBody := true }
  | TripperOption.captureResponseBody => { st with captureResponseBody := true }
  | TripperOption.captureRequestHeaders => { st with captureRequestHeaders := true }
  | TripperOption.captureResponseHeaders => { st with captureResponseHeaders := true }

/-- Model of `NewSlogTripper`: start from the documented defaults (eagerly
resolved ambient logger and transport, level Info, all capture flags false)
and apply the options in order. -/
def newSlogTripper (g : Globals) (opts : List TripperOption) : SlogTripper :=
  opts.foldl (applyOption g)
    { logger := some g.defaultLogger
      logAtLevel := levelInfo
      proxyTransport := g.defaultTransport
      captureRequestBody := false
      captureResponseBody := false
      captureRequestHeaders := false
      captureResponseHeaders := false }

/-- Process state touched by `Init`: the ambient defaults plus the state of
the package-level `sync.Once` guard `m`. -/
structure ProcState where
  g : Globals
  initDone : Bool
deriving DecidableEq

/-- Model of `Init`: under the `sync.Once` guard, first set
`http.DefaultTransport` to `NewSlogTripper()` (built over the defaults active
at that moment), then set it again to a zero-value `SlogTripper` whose only
populated field is `proxyTransport`, read from the just-updated default. -/
def Init (s : ProcState) : ProcState :=
  if s.initDone then s
  else
    let afterFirst : Globals :=
      { s.g with defaultTransport := (newSlogTripper s.g []).asTransport }
    let installed : SlogTripper :=
      { logger := none
        logAtLevel := 0
        proxyTransport := afterFirst.defaultTransport
        captureRequestBody := false
        captureResponseBody := false
        captureRequestHeaders := false
        captureResponseHeaders := false }
    { g := { afterFirst with defaultTransport := installed.asTransport }
      initDone := true }

/-- Fields of `*http.Request` used by `RoundTrip`.  `url` is the string form
`req.URL.String()`; `none` models a nil `req.URL`.  `header = none` and
`body = none` model nil values. -/
structure Request where
  method : String
  contentLength : Int
  proto : String
  url : Option String
  body : Option Body
  header : Option Header

/-- Fields of `*http.Response` used by `RoundTrip`. -/
structure Response where
  statusCode : Int
  contentLength : Int
  header : Option Header
  body : Option Body

/-- Structured log attributes built by `RoundTrip` (the `slog.Attr` values in
the request/response groups). -/
inductive Attr where
  | time : String → Int → Attr
  | str : String → String → Attr
  | int : String → Int → Attr
  | duration : String → Int → Attr
  | anyv : String → String → Attr
  | group : String → List Attr → Attr

/-- Invocation of the logger sink made by the `log` method: which logger
value was called (possibly nil), at which level, with which message and
attributes. -/
inductive LogAction where
  | emit : Option Logger → Int → String → List Attr → LogAction

/-- Model of the `log` method: a two-case switch on the configured level.
Debug and Info call the corresponding logger method; any other level falls
through and emits nothing. -/
def SlogTripper.log (st : SlogTripper) (msg : String) (args : List Attr) :
    Option LogAction :=
  if st.logAtLevel = levelDebug then
    some (LogAction.emit st.logger levelDebug msg args)
  else if st.logAtLevel = levelInfo then
    some (LogAction.emit st.logger levelInfo msg args)
  else none

/-- Model of `http.StatusText` for the status codes exercised in this
development (the stdlib table is larger; unknown codes map to `""`, as in
Go). -/
def statusText (code : Int) : String :=
  if code = 200 then "OK"
  else if code = 201 then "Created"
  else if code = 204 then "No Content"
  else if code = 301 then "Moved Permanently"
  else if code = 302 then "Found"
  else if code = 400 then "Bad Request"
  else if code = 401 then "Unauthorized"
  else if code = 403 then "Forbidden"
  else if code = 404 then "Not Found"
  else if code = 500 then "Internal Server Error"
  else if code = 502 then "Bad Gateway"
  else if code = 503 then "Service Unavailable"
  else ""

/-- Behaviour of `st.proxyTransport.RoundTrip`: the delegate maps a request
pointer to a `(response, error)` pair, each component possibly nil. -/
abbrev Delegate := Option Request → Option Response × Option Err

/-- Request-header capture block: when enabled and the header map is non-nil,
one `slog.String(name, req.Header.Get(name))` per stored name, appended as a
nested `headers` group only when at least one attribute was built. -/
def requestHeaderStep (st : SlogTripper) (g : List Attr) (req : Request) :
    List Attr :=
  if st.captureRequestHeaders then
    match req.header with
    | some hs =>
      let headers := hs.map (fun p => Attr.str p.1 (headerGet (some hs) p.1))
      if headers.length != 0 then g ++ [Attr.group "headers" headers] else g
    | none => g
  else g

/-- Request side of `RoundTrip`, up to the delegate call: build the request
group, optionally drain and replace the request body (an `Except.error` is
the early `return nil, err`), optionally capture request headers.  Returns
the request group, the request object as left by this phase, and whether the
original request body was closed. -/
def requestPhase (st : SlogTripper) (start : Int) :
    Option Request → Except Err (List Attr × Option Request × Bool)
  | none => Except.ok ([Attr.time "started_at" start], none, false)
  | some req =>
    let g1 := [Attr.time "started_at" start,
               Attr.str "method" req.method,
               Attr.int "content_length" req.contentLength,
               Attr.str "proto" req.proto]
    let g2 := match req.url with
      | some u => g1 ++ [Attr.str "url" u]
      | none => g1
    if st.captureRequestBody then
      match req.body with
      | some b =>
        match b.readResult with
        | Except.error e => Except.error e
        | Except.ok s =>
          let req2 : Request := { req with body := some ⟨Except.ok s⟩ }
          let g3 := g2 ++ [Attr.anyv "body_content" s]
          Except.ok (requestHeaderStep st g3 req2, some req2, true)
      | none => Except.ok (requestHeaderStep st g2 req, some req, false)
    else Except.ok (requestHeaderStep st g2 req, some req, false)

/-- Outcome of the response side of `RoundTrip`: an early `return nil, err`
on a body read failure, a nil-pointer panic (site named), or the response
group together with the response object as left by the phase and whether the
original response body was closed. -/
inductive RPOut where
  | earlyErr : Err → RPOut
  | panicked : String → Option Response → Bool → RPOut
  | done : List Attr → Option Response → Bool → RPOut

/-- Response-header capture block.  Faithful to the source defect: the value
logged for each name stored in the response's header map is
`req.Header.Get(name)`, read from the request.  With a nil request the first
loop iteration dereferences it and panics; an empty map runs no iteration. -/
def responseHeaderStep (st : SlogTripper) (g : List Attr)
    (req0 : Option Request) (res : Response) (closed : Bool) : RPOut :=
  if st.captureResponseHeaders then
    match res.header with
    | some hs =>
      match hs with
      | [] => RPOut.done g (some res) closed
      | _ :: _ =>
        match req0 with
        | none => RPOut.panicked "req.Header" (some res) closed
        | some req =>
          let headers := hs.map (fun p => Attr.str p.1 (headerGet req.header p.1))
          if headers.length != 0 then
            RPOut.done (g ++ [Attr.group "headers" headers]) (some res) closed
          else RPOut.done g (some res) closed
    | none => RPOut.done g (some res) closed
  else RPOut.done g (some res) closed

/-- Response side of `RoundTrip`: record the delegate error if any; when a
response exists, record its metadata, optionally drain and replace its body
(a read failure is the early `return nil, err`), and optionally capture
headers (from the request — the source defect). -/
def responsePhase (st : SlogTripper) (elapsed : Int) (req0 : Option Request)
    (res0 : Option Response) (err : Option Err) : RPOut :=
  let g1 : List Attr := match err with
    | some e => [Attr.anyv "error" e]
    | none => []
  match res0 with
  | none => RPOut.done g1 none false
  | some res =>
    let g2 := g1 ++ [Attr.str "status" (statusText res.statusCode),
                     Attr.int "status_code" res.statusCode,
                     Attr.int "content_length" res.contentLength,
                     Attr.duration "time_taken" elapsed,
                     Attr.str "content_type" (headerGet res.header "Content-Type")]
    if st.captureResponseBody then
      match res.body with
      | some b =>
        match b.readResult with
        | Except.error e => RPOut.earlyErr e
        | Except.ok s =>
          let res2 : Response := { res with body := some ⟨Except.ok s⟩ }
          let g3 := g2 ++ [Attr.anyv "body_content" s]
          responseHeaderStep st g3 req0 res2 true
      | none => responseHeaderStep st g2 req0 res false
    else responseHeaderStep st g2 req0 res false

/-- What a `RoundTrip` call does at the caller's boundary: return a
`(response, error)` pair, or panic on a nil dereference (site named). -/
inductive RTReturn where
  | ret : Option Response → Option Err → RTReturn
  | panicked : String → RTReturn

/-- Full observable outcome of one `RoundTrip` call: the returned pair (or
panic), whether the delegate was invoked, the logger invocation made (if
any), the request/response objects as the caller sees them afterwards, and
which original bodies were closed. -/
structure RTResult where
  ret : RTReturn
  delegateCalled : Bool
  logCall : Option LogAction
  finalReq : Option Request
  finalRes : Option Response
  reqBodyClosed : Bool
  resBodyClosed : Bool

/-- Model of `SlogTripper.RoundTrip`.  `start` is the value of `time.Now()`
at entry and `elapsed` the value `time.Since(start)` takes in the response
group.  The final `st.log(req.Context(), ...)` dereferences the request, so
a nil request panics there after the delegate call. -/
def SlogTripper.roundTrip (st : SlogTripper) (delegate : Delegate)
    (req0 : Option Request) (start elapsed : Int) : RTResult :=
  match requestPhase st start req0 with
  | Except.error e =>
    { ret := RTReturn.ret none (some e)
      delegateCalled := false
      logCall := none
      finalReq := req0
      finalRes := none
      reqBodyClosed := false
      resBodyClosed := false }
  | Except.ok (reqGroup, req2, reqClosed) =>
    let dres := delegate req2
    match responsePhase st elapsed req2 dres.1 dres.2 with
    | RPOut.earlyErr e =>
      { ret := RTReturn.ret none (some e)
        delegateCalled := true
        logCall := none
        finalReq := req2
        finalRes := dres.1
        reqBodyClosed := reqClosed
        resBodyClosed := false }
    | RPOut.panicked site res2 resClosed =>
      { ret := RTReturn.panicked site
        delegateCalled := true
        logCall := none
        finalReq := req2
        finalRes := res2
        reqBodyClosed := reqClosed
        resBodyClosed := resClosed }
    | RPOut.done respGroup res2 resClosed =>
      match req2 with
      | none =>
        { ret := RTReturn.panicked "req.Context"
          delegateCalled := true
          logCall := none
          finalReq := none
          finalRes := res2
          reqBodyClosed := reqClosed
          resBodyClosed := resClosed }
      | some _ =>
        { ret := RTReturn.ret res2 dres.2
          delegateCalled := true
          logCall := st.log "HTTP Request"
            [Attr.group "request" reqGroup, Attr.group "response" respGroup]
          finalReq := req2
          finalRes := res2
          reqBodyClosed := reqClosed
          resBodyClosed := resClosed }

/-! Concrete fixtures used by witnesses and counterexamples, drawn from the
scenarios in the package's test file. -/

/-- Some external transport standing for the ambient default. -/
def extTransport : Transport := Transport.ext 0

/-- Decorator with a (non-nil) logger, level Info, and no capture enabled. -/
def stPlain : SlogTripper :=
  { logger := some 0
    logAtLevel := levelInfo
    proxyTransport := extTransport
    captureRequestBody := false
    captureResponseBody := false
    captureRequestHeaders := false
    captureResponseHeaders := false }

/-- Decorator capturing only response headers. -/
def stRespHeaders : SlogTripper := { stPlain with captureResponseHeaders := true }

/-- Decorator capturing only the request body. -/
def stCaptureReq : SlogTripper := { stPlain with captureRequestBody := true }

/-- Decorator capturing only the response body. -/
def stCaptureRes : SlogTripper := { stPlain with captureResponseBody := true }

/-- Decorator capturing both bodies. -/
def stCaptureBoth : SlogTripper :=
  { stPlain with captureRequestBody := true, captureResponseBody := true }

/-- Plain GET request with an empty (non-nil) header map and no body. -/
def reqBasic : Request :=
  { method := "GET"
    contentLength := 0
    proto := "HTTP/1.1"
    url := some "http://localhost/"
    body := none
    header := some [] }

/-- POST request whose body reads successfully. -/
def reqPost : Request :=
  { method := "POST"
    contentLength := 5
    proto := "HTTP/1.1"
    url := some "http://localhost/"
    body := some ⟨Except.ok "hello"⟩
    header := none }

/-- Request whose body read fails, as in the faulty-request-body test. -/
def reqFaultyBody : Request :=
  { method := ""
    contentLength := 0
    proto := ""
    url := none
    body := some ⟨Except.error "error"⟩
    header := none }

/-- Response carrying one header the request does not have. -/
def resPing : Response :=
  { statusCode := 200
    contentLength := 15
    header := some [("X-Ping", ["pong"])]
    body := none }

/-- Response whose body reads successfully. -/
def resOk : Response :=
  { statusCode := 200
    contentLength := 4
    header := none
    body := some ⟨Except.ok "gday"⟩ }

/-- Response whose body read fails, as in the faulty-response-body test. -/
def resFaultyBody : Response :=
  { statusCode := 0
    contentLength := 0
    header := none
    body := some ⟨Except.error "error"⟩ }

/-- Delegate returning nothing at all. -/
def delegateNil : Delegate := fun _ => (none, none)

/-- Delegate returning `resPing` and no error. -/
def dResPing : Delegate := fun _ => (some resPing, none)

/-- Delegate returning `resOk` and no error. -/
def dResOk : Delegate := fun _ => (some resOk, none)

/-- Delegate returning `resFaultyBody` and no error. -/
def dResFaulty : Delegate := fun _ => (some resFaultyBody, none)

/-- Delegate returning only an error. -/
def dErrOnly : Delegate := fun _ => (none, some "mock error")

/-- Fresh process state: defaults in place, `Init` not yet run. -/
def procState0 : ProcState :=
  { g := { defaultLogger := 0, defaultTransport := Transport.ext 0 }
    initDone := false }

/-- The decorator `Init` ends up installing when run over state `s`: a
zero-value struct except for the delegate, which is the `NewSlogTripper()`
assigned to the process default just before. -/
def installedTripper (s : ProcState) : SlogTripper :=
  { logger := none
    logAtLevel := 0
    proxyTransport := Transport.tripper (some s.g.defaultLogger) levelInfo
      s.g.defaultTransport false false false false
    captureRequestBody := false
    captureResponseBody := false
    captureRequestHeaders := false
    captureResponseHeaders := false }

/-! Helper lemmas shared by the claim theorems. -/

/-- With request-body capture off, the request phase succeeds and leaves the
request object and the closed flag untouched. -/
theorem requestPhase_noCapture (st : SlogTripper) (req : Request) (start : Int)
    (h1 : st.captureRequestBody = false) :
    ∃ g, requestPhase st start (some req) = Except.ok (g, some req, false) := by
  simp [requestPhase, h1]

/-- With request-body capture on and a body that reads successfully, the
request phase closes the original body and replaces it by a reader over the
captured bytes. -/
theorem requestPhase_capture_ok (st : SlogTripper) (req : Request) (b : Body)
    (s : Bytes) (start : Int) (h1 : st.captureRequestBody = true)
    (hb : req.body = some b) (hr : b.readResult = Except.ok s) :
    ∃ g, requestPhase st start (some req) =
      Except.ok (g, some { req with body := some ⟨Except.ok s⟩ }, true) := by
  simp [requestPhase, h1, hb, hr]

/-- With request-body capture on and a body whose read fails, the request
phase aborts with that error. -/
theorem requestPhase_capture_error (st : SlogTripper) (req : Request) (b : Body)
    (e : Err) (start : Int) (h1 : st.captureRequestBody = true)
    (hb : req.body = some b) (hr : b.readResult = Except.error e) :
    requestPhase st start (some req) = Except.error e := by
  simp [requestPhase, h1, hb, hr]

/-- With a non-nil request in scope, the response-header block never panics:
it only ever extends the group. -/
theorem responseHeaderStep_some_req (st : SlogTripper) (g : List Attr)
    (req : Request) (res : Response) (closed : Bool) :
    ∃ g2, responseHeaderStep st g (some req) res closed =
      RPOut.done g2 (some res) closed := by
  unfold responseHeaderStep
  cases hcap : st.captureResponseHeaders with
  | false => exact ⟨g, by simp⟩
  | true =>
    cases hh : res.header with
    | none => exact ⟨g, by simp⟩
    | some hs =>
      cases hs with
      | nil => exact ⟨g, by simp⟩
      | cons a tl =>
        simp only [Bool.true_eq_false]
        split
        · exact ⟨_, rfl⟩
        · exact ⟨_, rfl⟩

/-- With response-body capture off and capture of response headers off, the
response phase succeeds and leaves the response object untouched. -/
theorem responsePhase_noCapture (st : SlogTripper) (elapsed : Int)
    (req0 : Option Request) (res0 : Option Response) (err : Option Err)
    (h2 : st.captureResponseBody = false) (h4 : st.captureResponseHeaders = false) :
    ∃ g, responsePhase st elapsed req0 res0 err = RPOut.done g res0 false := by
  cases res0 with
  | none => exact ⟨_, rfl⟩
  | some res => simp [responsePhase, responseHeaderStep, h2, h4]

/-- With response-body capture on, a response in hand whose body reads
successfully, and a non-nil request, the response phase closes the original
body and replaces it by a reader over the captured bytes. -/
theorem responsePhase_capture_ok (st : SlogTripper) (elapsed : Int)
    (req : Request) (res : Response) (b : Body) (s : Bytes) (err : Option Err)
    (h2 : st.captureResponseBody = true) (hb : res.body = some b)
    (hr : b.readResult = Except.ok s) :
    ∃ g, responsePhase st elapsed (some req) (some res) err =
      RPOut.done g (some { res with body := some ⟨Except.ok s⟩ }) true := by
  simp only [responsePhase, h2, hb, hr]
  exact responseHeaderStep_some_req st _ req { res with body := some ⟨Except.ok s⟩ } true

/-- With response-body capture on and a body whose read fails, the response
phase aborts with that error. -/
theorem responsePhase_capture_error (st : SlogTripper) (elapsed : Int)
    (req0 : Option Request) (res : Response) (b : Body) (e : Err)
    (err : Option Err) (h2 : st.captureResponseBody = true)
    (hb : res.body = some b) (hr : b.readResult = Except.error e) :
    responsePhase st elapsed req0 (some res) err = RPOut.earlyErr e := by
  simp [responsePhase, h2, hb, hr]

/-- Once the request phase has produced its triple, the final request object
and the request-body-closed flag of the whole call are the ones the request
phase produced, whatever happens later. -/
theorem roundTrip_finalReq (st : SlogTripper) (delegate : Delegate)
    (req0 : Option Request) (g : List Attr) (req2 : Option Request) (cl : Bool)
    (start elapsed : Int)
    (h : requestPhase st start req0 = Except.ok (g, req2, cl)) :
    (st.roundTrip delegate req0 start elapsed).finalReq = req2 ∧
    (st.roundTrip delegate req0 start elapsed).reqBodyClosed = cl := by
  unfold SlogTripper.roundTrip
  rw [h]
  cases hrp : responsePhase st elapsed req2 (delegate req2).1 (delegate req2).2 with
  | earlyErr e => simp [hrp]
  | panicked site r c => simp [hrp]
  | done g2 r c => cases req2 <;> simp [hrp]

/-- With no capture enabled at all, a call on a non-nil request invokes the
delegate once, logs through the `log` method, touches nothing, and hands the
delegate's pair straight back. -/
theorem roundTrip_noCapture (st : SlogTripper) (delegate : Delegate)
    (req : Request) (start elapsed : Int) (h1 : st.captureRequestBody = false)
    (h2 : st.captureResponseBody = false) (h4 : st.captureResponseHeaders = false) :
    ∃ gq gr, st.roundTrip delegate (some req) start elapsed =
      { ret := RTReturn.ret (delegate (some req)).1 (delegate (some req)).2
        delegateCalled := true
        logCall := st.log "HTTP Request"
          [Attr.group "request" gq, Attr.group "response" gr]
        finalReq := some req
        finalRes := (delegate (some req)).1
        reqBodyClosed := false
        resBodyClosed := false } := by
  obtain ⟨gq, hq⟩ := requestPhase_noCapture st req start h1
  obtain ⟨gr, hr⟩ := responsePhase_noCapture st elapsed (some req)
    (delegate (some req)).1 (delegate (some req)).2 h2 h4
  refine ⟨gq, gr, ?_⟩
  unfold SlogTripper.roundTrip
  rw [hq]
  simp only [hr]

/-! Claim theorems. -/

/-- C2: when request-body capture is enabled and the body read fails,
`RoundTrip` returns that read error as `(nil, err)`, never invokes the
delegate, emits no log record, and leaves the request object untouched. -/
theorem roundTrip_requestBody_readError_aborts (st : SlogTripper)
    (delegate : Delegate) (req : Request) (b : Body) (e : Err)
    (start elapsed : Int) (hc : st.captureRequestBody = true)
    (hb : req.body = some b) (hr : b.readResult = Except.error e) :
    st.roundTrip delegate (some req) start elapsed =
      { ret := RTReturn.ret none (some e)
        delegateCalled := false
        logCall := none
        finalReq := some req
        finalRes := none
        reqBodyClosed := false
        resBodyClosed := false } := by
  have hreq := requestPhase_capture_error st req b e start hc hb hr
  simp [SlogTripper.roundTrip, hreq]

/-- C2 witness: concrete faulty request body, as in the package's test. -/
theorem roundTrip_requestBody_readError_aborts_witness :
    SlogTripper.roundTrip stCaptureReq delegateNil (some reqFaultyBody) 0 0 =
      { ret := RTReturn.ret none (some "error")
        delegateCalled := false
        logCall := none
        finalReq := some reqFaultyBody
        finalRes := none
        reqBodyClosed := false
        resBodyClosed := false } :=
  roundTrip_requestBody_readError_aborts stCaptureReq delegateNil reqFaultyBody
    ⟨Except.error "error"⟩ "error" 0 0 rfl rfl rfl

/-- C3: whenever a request body (first conjunct) or a response body (second
conjunct) is captured successfully, the original body is closed and the
object's body is replaced by a fresh reader over exactly the captured bytes,
so a later read yields the bytes present before the call. -/
theorem roundTrip_captured_bodies_preserved :
    (∀ (st : SlogTripper) (delegate : Delegate) (req : Request) (b : Body)
        (s : Bytes) (start elapsed : Int),
      st.captureRequestBody = true → req.body = some b →
      b.readResult = Except.ok s →
        (st.roundTrip delegate (some req) start elapsed).reqBodyClosed = true ∧
        (st.roundTrip delegate (some req) start elapsed).finalReq =
          some { req with body := some ⟨Except.ok s⟩ }) ∧
    (∀ (st : SlogTripper) (delegate : Delegate) (req : Request) (g : List Attr)
        (req2 : Request) (cl : Bool) (res : Response) (b : Body) (s : Bytes)
        (err : Option Err) (start elapsed : Int),
      st.captureResponseBody = true →
      requestPhase st start (some req) = Except.ok (g, some req2, cl) →
      delegate (some req2) = (some res, err) →
      res.body = some b → b.readResult = Except.ok s →
        (st.roundTrip delegate (some req) start elapsed).resBodyClosed = true ∧
        (st.roundTrip delegate (some req) start elapsed).finalRes =
          some { res with body := some ⟨Except.ok s⟩ }) := by
  constructor
  · intro st delegate req b s start elapsed hc hb hr
    obtain ⟨g, hreq⟩ := requestPhase_capture_ok st req b s start hc hb hr
    exact And.comm.mp
      (roundTrip_finalReq st delegate (some req) g _ true start elapsed hreq)
  · intro st delegate req g req2 cl res b s err start elapsed hc hreq hdel hb hr
    obtain ⟨gr, hrp⟩ := responsePhase_capture_ok st elapsed req2 res b s err hc hb hr
    unfold SlogTripper.roundTrip
    rw [hreq]
    simp [hdel, hrp]

/-- C3 witness: both captures on, both bodies read successfully; the final
request and response bodies hold exactly the original bytes and both
originals were closed. -/
theorem roundTrip_captured_bodies_preserved_witness :
    ((SlogTripper.roundTrip stCaptureBoth dResOk (some reqPost) 0 0).reqBodyClosed = true ∧
      (SlogTripper.roundTrip stCaptureBoth dResOk (some reqPost) 0 0).finalReq =
        some { reqPost with body := some ⟨Except.ok "hello"⟩ }) ∧
    ((SlogTripper.roundTrip stCaptureBoth dResOk (some reqPost) 0 0).resBodyClosed = true ∧
      (SlogTripper.roundTrip stCaptureBoth dResOk (some reqPost) 0 0).finalRes =
        some { resOk with body := some ⟨Except.ok "gday"⟩ }) :=
  ⟨roundTrip_captured_bodies_preserved.1 stCaptureBoth dResOk reqPost
      ⟨Except.ok "hello"⟩ "hello" 0 0 rfl rfl rfl,
    roundTrip_captured_bodies_preserved.2 stCaptureBoth dResOk reqPost _
      { reqPost with body := some ⟨Except.ok "hello"⟩ } true resOk
      ⟨Except.ok "gday"⟩ "gday" none 0 0 rfl rfl rfl rfl rfl⟩

/-- C4: with all four capture flags disabled, `RoundTrip` on a request
returns exactly the `(response, error)` pair the delegate returns for that
request. -/
theorem roundTrip_noCapture_returns_delegate_pair (st : SlogTripper)
    (delegate : Delegate) (req : Request) (start elapsed : Int)
    (h1 : st.captureRequestBody = false) (h2 : st.captureResponseBody = false)
    (_h3 : st.captureRequestHeaders = false)
    (h4 : st.captureResponseHeaders = false) :
    (st.roundTrip delegate (some req) start elapsed).ret =
      RTReturn.ret (delegate (some req)).1 (delegate (some req)).2 := by
  obtain ⟨gq, gr, h⟩ := roundTrip_noCapture st delegate req start elapsed h1 h2 h4
  rw [h]

/-- C4 witness: no capture, delegate returning only an error; the pair is
passed through verbatim. -/
theorem roundTrip_noCapture_returns_delegate_pair_witness :
    (SlogTripper.roundTrip stPlain dErrOnly (some reqBasic) 0 0).ret =
      RTReturn.ret none (some "mock error") :=
  roundTrip_noCapture_returns_delegate_pair stPlain dErrOnly reqBasic 0 0
    rfl rfl rfl rfl

/-- C5: when response-body capture is enabled, the delegate produced a
response, and reading its body fails, `RoundTrip` returns `(nil, readError)`
— discarding the delegate's response and error — and emits no log record. -/
theorem roundTrip_responseBody_readError_aborts (st : SlogTripper)
    (delegate : Delegate) (req : Request) (g : List Attr) (req2 : Request)
    (cl : Bool) (res : Response) (b : Body) (e : Err) (derr : Option Err)
    (start elapsed : Int) (hc : st.captureResponseBody = true)
    (hreq : requestPhase st start (some req) = Except.ok (g, some req2, cl))
    (hdel : delegate (some req2) = (some res, derr))
    (hb : res.body = some b) (hr : b.readResult = Except.error e) :
    st.roundTrip delegate (some req) start elapsed =
      { ret := RTReturn.ret none (some e)
        delegateCalled := true
        logCall := none
        finalReq := some req2
        finalRes := some res
        reqBodyClosed := cl
        resBodyClosed := false } := by
  have hrp := responsePhase_capture_error st elapsed (some req2) res b e derr hc hb hr
  unfold SlogTripper.roundTrip
  rw [hreq]
  simp only [hdel, hrp]

/-- C5 witness: concrete faulty response body, as in the package's test. -/
theorem roundTrip_responseBody_readError_aborts_witness :
    SlogTripper.roundTrip stCaptureRes dResFaulty (some reqBasic) 0 0 =
      { ret := RTReturn.ret none (some "error")
        delegateCalled := true
        logCall := none
        finalReq := some reqBasic
        finalRes := some resFaultyBody
        reqBodyClosed := false
        resBodyClosed := false } :=
  roundTrip_responseBody_readError_aborts stCaptureRes dResFaulty reqBasic _
    reqBasic false resFaultyBody ⟨Except.error "error"⟩ "error" none 0 0
    rfl rfl rfl rfl rfl

/-- C1 evaluation at the failing input: with response-header capture on, a
response carrying `X-Ping: pong`, and a request without that header, the
emitted record's response `headers` group holds `X-Ping` with the value read
from the request (the empty string), although the response's own value is
`"pong"` — the capture reads `req.Header`, not `res.Header`. -/
theorem respHeaders_values_come_from_request :
    (SlogTripper.roundTrip stRespHeaders dResPing (some reqBasic) 0 5).logCall =
      some (LogAction.emit (some 0) levelInfo "HTTP Request"
        [Attr.group "request"
          [Attr.time "started_at" 0, Attr.str "method" "GET",
           Attr.int "content_length" 0, Attr.str "proto" "HTTP/1.1",
           Attr.str "url" "http://localhost/"],
         Attr.group "response"
          [Attr.str "status" "OK", Attr.int "status_code" 200,
           Attr.int "content_length" 15, Attr.duration "time_taken" 5,
           Attr.str "content_type" "",
           Attr.group "headers" [Attr.str "X-Ping" ""]]]) ∧
    headerGet resPing.header "X-Ping" = "pong" :=
  ⟨rfl, rfl⟩

/-- C6 counterexample: with a nil request and no capture, the call does not
complete log emission — it panics dereferencing the nil request at
`req.Context()` and no log record is produced. -/
theorem nilRequest_panics_at_context :
    (SlogTripper.roundTrip stPlain delegateNil none 0 0).ret =
      RTReturn.panicked "req.Context" ∧
    (SlogTripper.roundTrip stPlain delegateNil none 0 0).logCall = none :=
  ⟨rfl, rfl⟩

/-- C6 amended: for a nil request, the request group is built with only the
started-at timestamp and the metadata-extraction step never dereferences the
request, but the call never emits a log record, and whenever the response
side completes normally the call panics at the log step's `req.Context()`
dereference. -/
theorem nilRequest_timestamp_only_then_no_log (st : SlogTripper)
    (delegate : Delegate) (start elapsed : Int) :
    requestPhase st start none =
      Except.ok ([Attr.time "started_at" start], none, false) ∧
    (st.roundTrip delegate none start elapsed).logCall = none ∧
    (∀ (g : List Attr) (r : Option Response) (c : Bool),
      responsePhase st elapsed none (delegate none).1 (delegate none).2 =
        RPOut.done g r c →
      (st.roundTrip delegate none start elapsed).ret =
        RTReturn.panicked "req.Context") := by
  refine ⟨rfl, ?_, ?_⟩
  · unfold SlogTripper.roundTrip
    cases hrp : responsePhase st elapsed none (delegate none).1 (delegate none).2 with
    | earlyErr e => simp [requestPhase, hrp]
    | panicked site r c => simp [requestPhase, hrp]
    | done g r c => simp [requestPhase, hrp]
  · intro g r c hrp
    unfold SlogTripper.roundTrip
    simp [requestPhase, hrp]

/-- C6 witness for the amended claim at a concrete nil-request run. -/
theorem nilRequest_timestamp_only_then_no_log_witness :
    requestPhase stPlain 0 none =
      Except.ok ([Attr.time "started_at" 0], none, false) ∧
    (SlogTripper.roundTrip stPlain delegateNil none 0 0).ret =
      RTReturn.panicked "req.Context" :=
  ⟨(nilRequest_timestamp_only_then_no_log stPlain delegateNil 0 0).1,
    (nilRequest_timestamp_only_then_no_log stPlain delegateNil 0 0).2.2
      [] none false rfl⟩

/-- C9: the `log` method emits a record exactly when the configured severity
is Info or Debug; any other severity emits nothing. -/
theorem log_emits_only_info_or_debug (st : SlogTripper) (msg : String)
    (args : List Attr) :
    (st.log msg args).isSome = true ↔
      (st.logAtLevel = levelInfo ∨ st.logAtLevel = levelDebug) := by
  unfold SlogTripper.log
  by_cases h1 : st.logAtLevel = levelDebug
  · simp [h1, levelDebug, levelInfo]
  · by_cases h2 : st.logAtLevel = levelInfo
    · simp [h1, h2, levelDebug, levelInfo]
    · simp [h1, h2]

/-- C10: construction with no options yields the eagerly resolved ambient
logger, severity Info, the ambient default transport and all capture flags
off; and the logger/delegate options fall back to the ambient defaults when
handed a nil value. -/
theorem newSlogTripper_defaults_and_nil_fallbacks (g : Globals) :
    newSlogTripper g [] =
      { logger := some g.defaultLogger
        logAtLevel := levelInfo
        proxyTransport := g.defaultTransport
        captureRequestBody := false
        captureResponseBody := false
        captureRequestHeaders := false
        captureResponseHeaders := false } ∧
    (∀ st : SlogTripper, applyOption g st (TripperOption.withLogger none) =
      { st with logger := some g.defaultLogger }) ∧
    (∀ st : SlogTripper, applyOption g st (TripperOption.withRoundTripper none) =
      { st with proxyTransport := g.defaultTransport }) :=
  ⟨rfl, fun _ => rfl, fun _ => rfl⟩

/-- C7: `Init` is guarded by a once flag — a second call changes nothing —
and after the first call the process default transport is a `SlogTripper`
whose delegate chain wraps the default transport that was active when `Init`
was called. -/
theorem init_idempotent_installs_wrapper (s : ProcState)
    (h : s.initDone = false) :
    Init (Init s) = Init s ∧
    ((Init s).g.defaultTransport).isTripper = true ∧
    ((Init s).g.defaultTransport).wraps s.g.defaultTransport = true := by
  have h1 : Init s =
      { g := { defaultLogger := s.g.defaultLogger
               defaultTransport := Transport.tripper none 0
                 (Transport.tripper (some s.g.defaultLogger) levelInfo
                   s.g.defaultTransport false false false false)
                 false false false false }
        initDone := true } := by
    simp [Init, h, newSlogTripper, SlogTripper.asTransport]
  refine ⟨?_, ?_, ?_⟩
  · rw [h1]; simp [Init]
  · rw [h1]; rfl
  · rw [h1]; simp [Transport.wraps]

/-- C7 witness at a concrete fresh process state. -/
theorem init_idempotent_installs_wrapper_witness :
    Init (Init procState0) = Init procState0 ∧
    ((Init procState0).g.defaultTransport).isTripper = true ∧
    ((Init procState0).g.defaultTransport).wraps
      procState0.g.defaultTransport = true :=
  init_idempotent_installs_wrapper procState0 rfl

/-- C8: the transport `Init` installs is a bare `SlogTripper` with a nil
logger and the zero severity (numerically Info), so every `RoundTrip` through
it on a non-nil request reaches the log step and invokes the nil logger. -/
theorem init_installed_nil_logger_reachable (s : ProcState)
    (h : s.initDone = false) :
    ∃ st : SlogTripper,
      ((Init s).g.defaultTransport).config = some st ∧
      st.logger = none ∧ st.logAtLevel = 0 ∧
      (∀ (delegate : Delegate) (req : Request) (start elapsed : Int),
        ∃ args, (st.roundTrip delegate (some req) start elapsed).logCall =
          some (LogAction.emit none levelInfo "HTTP Request" args)) := by
  refine ⟨installedTripper s, ?_, rfl, rfl, ?_⟩
  · simp [Init, h, newSlogTripper, SlogTripper.asTransport, Transport.config,
      installedTripper]
  · intro delegate req start elapsed
    obtain ⟨gq, gr, hrt⟩ :=
      roundTrip_noCapture (installedTripper s) delegate req start elapsed
        rfl rfl rfl
    rw [hrt]
    exact ⟨[Attr.group "request" gq, Attr.group "response" gr], by
      simp [SlogTripper.log, levelDebug, levelInfo, installedTripper]⟩

/-- C8 witness at a concrete fresh process state. -/
theorem init_installed_nil_logger_reachable_witness :
    ∃ st : SlogTripper,
      ((Init procState0).g.defaultTransport).config = some st ∧
      st.logger = none ∧ st.logAtLevel = 0 ∧
      (∀ (delegate : Delegate) (req : Request) (start elapsed : Int),
        ∃ args, (st.roundTrip delegate (some req) start elapsed).logCall =
          some (LogAction.emit none levelInfo "HTTP Request" args)) :=
  init_installed_nil_logger_reachable procState0 rfl
